import Mathlib

/-!
Shallow embedding of the data model of `examples/data-list-view.rs`:
the application state `MyData`, its message handler `handle`, and the
`Generator` implementation of the `DataGenerator` trait (`update`, `len`,
`key`, `generate`), together with the row-widget `ListEntryDriver`.

Machine integers (`usize`) are modelled as `Nat`, matching the spec's
description of the key space as unbounded natural numbers; the
`HashMap<usize, String>` is modelled as a function `Nat → Option String`
(insert is pointwise override, as `HashMap::insert` replaces).
-/

/-- `GeneratorChanges<usize>` from the kas view API, as used by the example:
`None` (nothing changed), `Any` (anything may have changed),
`Range lo hi` (keys in `lo..hi` changed). -/
inductive GeneratorChanges where
| None : GeneratorChanges
| Any : GeneratorChanges
| Range : Nat → Nat → GeneratorChanges
deriving DecidableEq, Repr

/-- `DataLen<usize>`: either a known exact length or a lower bound. -/
inductive DataLen where
| Known : Nat → DataLen
| LBound : Nat → DataLen
deriving DecidableEq, Repr

/-- The numeric component of a `DataLen`. -/
def DataLen.bound : DataLen → Nat
| .Known n => n
| .LBound n => n

/-- The `Control` message enum of the example. -/
inductive Control where
| Select : Nat → Control
| Update : Nat → String → Control
deriving DecidableEq, Repr

/-- The `MyData` struct: change tracker, largest updated key, active row,
and the map of edited strings. -/
structure MyData where
  last_change : GeneratorChanges
  last_key : Nat
  active : Nat
  strings : Nat → Option String

/-- `MyData::new`. -/
def MyData.new : MyData :=
  { last_change := GeneratorChanges.None
    last_key := 0
    active := 0
    strings := fun _ => none }

/-- `MyData::get_string`: the stored string for `index` when present,
otherwise the default text `Entry #{index+1}`. -/
def MyData.get_string (d : MyData) (index : Nat) : String :=
  (d.strings index).getD ("Entry #" ++ toString (index + 1))

/-- `MyData::handle`: the message handler. `Select` sets the change tracker
to `Any` and records the active row; `Update` sets the tracker to the
one-key range, raises `last_key`, and stores the text. -/
def MyData.handle (d : MyData) (control : Control) : MyData :=
  match control with
  | Control.Select index =>
      { d with last_change := GeneratorChanges.Any, active := index }
  | Control.Update index text =>
      { d with
          last_change := GeneratorChanges.Range index (index + 1)
          last_key := max d.last_key index
          strings := fun k => if k = index then some text else d.strings k }

/-- `Generator::update`: returns the pending change set recorded in the data. -/
def Generator.update (data : MyData) : GeneratorChanges :=
  data.last_change

/-- `Generator::len`: a lower bound on the number of rows. -/
def Generator.len (data : MyData) (lbound : Nat) : DataLen :=
  DataLen.LBound (max (max data.active data.last_key + 1) lbound)

/-- `Generator::key`: the key of an index is the index itself. -/
def Generator.key (_ : MyData) (index : Nat) : Option Nat :=
  some index

/-- `Generator::generate`: the item for a key is the pair of the active
index and the key's string. -/
def Generator.generate (data : MyData) (key : Nat) : Nat × String :=
  (data.active, data.get_string key)

/-- Whether a change set covers a key: `None` covers nothing, `Any` covers
everything, `Range lo hi` covers `lo ≤ k < hi`. -/
def GeneratorChanges.covers (cs : GeneratorChanges) (k : Nat) : Bool :=
  match cs with
  | GeneratorChanges.None => false
  | GeneratorChanges.Any => true
  | GeneratorChanges.Range lo hi => decide (lo ≤ k) && decide (k < hi)

/-- The state reached from `MyData::new` by a sequence of handled messages. -/
def MyData.fromOps (cs : List Control) : MyData :=
  cs.foldl MyData.handle MyData.new

/-- A state satisfies `KeysBounded` when every stored string sits at a key
no larger than `last_key`. This holds in every state reachable from
`MyData::new`, since `handle (Update i s)` raises `last_key` to at least `i`. -/
def MyData.KeysBounded (d : MyData) : Prop :=
  ∀ k, d.last_key < k → d.strings k = none

theorem keysBounded_new : MyData.KeysBounded MyData.new :=
  fun _ _ => rfl

theorem keysBounded_handle {d : MyData} (hd : d.KeysBounded) (c : Control) :
    (d.handle c).KeysBounded := by
  cases c with
  | Select i => intro k hk; exact hd k hk
  | Update i s =>
    intro k hk
    simp only [MyData.handle] at hk ⊢
    have h1 : d.last_key < k := lt_of_le_of_lt (Nat.le_max_left _ _) hk
    have h2 : i < k := lt_of_le_of_lt (Nat.le_max_right _ _) hk
    rw [if_neg (by omega)]
    exact hd k h1

theorem keysBounded_fromOps (cs : List Control) : (MyData.fromOps cs).KeysBounded := by
  suffices h : ∀ (l : List Control) (d : MyData),
      d.KeysBounded → (l.foldl MyData.handle d).KeysBounded from
    h cs MyData.new keysBounded_new
  intro l
  induction l with
  | nil => intro d hd; exact hd
  | cons c l ih => intro d hd; exact ih (d.handle c) (keysBounded_handle hd c)

/-- Claim C1 counterexample: from the fresh state, handling `Update 0 "a"`
and then `Update 1 "b"` with no poll in between leaves
`last_change = Range 1 2`, which does not cover key 0 even though the first
call changed key 0's item (`handle` overwrites `last_change` instead of
merging). -/
theorem change_merge_counterexample :
    Generator.generate (MyData.new.handle (Control.Update 0 "a")) 0 ≠
      Generator.generate MyData.new 0 ∧
    GeneratorChanges.covers
      ((MyData.new.handle (Control.Update 0 "a")).handle
        (Control.Update 1 "b")).last_change 0 = false := by
  constructor
  · decide
  · rfl

/-- Claim C1 amended: `last_change` after a single `handle` call covers
every key whose item that call changed; coverage across two calls fails
because `handle` overwrites rather than merges the change set. -/
theorem change_tracker_covers_last_edit (d : MyData) (c : Control) (k : Nat)
    (h : Generator.generate (d.handle c) k ≠ Generator.generate d k) :
    GeneratorChanges.covers (d.handle c).last_change k = true := by
  cases c with
  | Select i => rfl
  | Update i s =>
    by_cases hk : k = i
    · subst hk
      simp [GeneratorChanges.covers, MyData.handle]
    · exfalso
      apply h
      simp [Generator.generate, MyData.handle, MyData.get_string, hk]

theorem change_tracker_covers_last_edit_witness :
    GeneratorChanges.covers
      (MyData.new.handle (Control.Update 0 "a")).last_change 0 = true :=
  change_tracker_covers_last_edit MyData.new (Control.Update 0 "a") 0 (by decide)

/-- Claim C2 counterexample: with `active = 5` and `last_key = 0`, handling
`Select 0` drops the reported lower bound from 6 to 1: `len` is not
monotone under `handle`. -/
theorem len_monotone_counterexample :
    (Generator.len ((MyData.new.handle (Control.Select 5)).handle
        (Control.Select 0)) 0).bound
      < (Generator.len (MyData.new.handle (Control.Select 5)) 0).bound := by
  decide

/-- Claim C2 amended: the bound reported by `len` is monotone under `handle`
for every `Update` message, and for a `Select i` whenever the prior active
index does not exceed `max i last_key`; a `Select` of a smaller index may
strictly decrease the bound. -/
theorem len_bound_monotone (d : MyData) (c : Control) (lbound : Nat)
    (h : match c with
         | Control.Update _ _ => True
         | Control.Select i => d.active ≤ max i d.last_key) :
    (Generator.len d lbound).bound ≤ (Generator.len (d.handle c) lbound).bound := by
  cases c with
  | Select i =>
    simp only [Generator.len, MyData.handle, DataLen.bound] at *
    omega
  | Update i s =>
    simp only [Generator.len, MyData.handle, DataLen.bound]
    omega

theorem len_bound_monotone_witness :
    (Generator.len MyData.new 0).bound ≤
      (Generator.len (MyData.new.handle (Control.Select 3)) 0).bound :=
  len_bound_monotone MyData.new (Control.Select 3) 0 (by decide)

/-- Claim C3: after exactly one `handle` call since the previous poll,
`Generator::update` returns exactly that call's change set: `Any` for
`Select i`, and `Range i (i+1)` for `Update i s`. -/
theorem update_reports_single_edit (d : MyData) (c : Control) :
    Generator.update (d.handle c) =
      (match c with
       | Control.Select _ => GeneratorChanges.Any
       | Control.Update i _ => GeneratorChanges.Range i (i + 1)) := by
  cases c <;> rfl

/-- Claim C8: `handle (Select i)` sets `active` to `i` and the change set to
`Any`, leaves `strings` and `last_key` unchanged, and hence every row's text
is identical before and after. -/
theorem select_frame (d : MyData) (i : Nat) :
    (d.handle (Control.Select i)).active = i ∧
    (d.handle (Control.Select i)).last_change = GeneratorChanges.Any ∧
    (d.handle (Control.Select i)).strings = d.strings ∧
    (d.handle (Control.Select i)).last_key = d.last_key ∧
    ∀ k, (d.handle (Control.Select i)).get_string k = d.get_string k :=
  ⟨rfl, rfl, rfl, rfl, fun _ => rfl⟩

/-- Claim C9: `Generator::key` always returns `some index`, independently of
the data, so keys are stable identifiers across all mutations. -/
theorem key_stable (d1 d2 : MyData) (i : Nat) :
    Generator.key d1 i = some i ∧ Generator.key d1 i = Generator.key d2 i :=
  ⟨rfl, rfl⟩

/-- Claim C4 counterexample: from the fresh state the reported bound is 1,
yet `generate` at the out-of-range key 5 does not fail: it silently returns
the fabricated default item `(0, "Entry #6")`. -/
theorem generate_out_of_range_counterexample :
    (Generator.len MyData.new 0).bound ≤ 5 ∧
    Generator.generate MyData.new 5 = (0, "Entry #6") := by
  constructor
  · decide
  · rfl

/-- Claim C4 amended: in every state reachable from `MyData::new`, calling
`generate` with a key at or beyond the bound reported by `len` does not
fail: it silently returns the default item `(active, "Entry #(key+1)")`. -/
theorem generate_out_of_range_defaults (cs : List Control) (k lbound : Nat)
    (h : (Generator.len (MyData.fromOps cs) lbound).bound ≤ k) :
    Generator.generate (MyData.fromOps cs) k =
      ((MyData.fromOps cs).active, "Entry #" ++ toString (k + 1)) := by
  have hb := keysBounded_fromOps cs
  have hk : (MyData.fromOps cs).last_key < k := by
    simp only [Generator.len, DataLen.bound] at h
    omega
  simp [Generator.generate, MyData.get_string, hb k hk]

theorem generate_out_of_range_defaults_witness :
    Generator.generate (MyData.fromOps [Control.Update 1 "x"]) 9 = (0, "Entry #10") :=
  (generate_out_of_range_defaults [Control.Update 1 "x"] 9 0 (by decide)).trans (by decide)

/-- Claim C5: every function of the `Generator` family is total: for every
state, key, index and bound hint, `len`, `key`, `generate` and `update`
each return a value (none of them has a failure path in the source:
`HashMap::get` misses are handled by the default string). -/
theorem generator_total (d : MyData) (lbound i k : Nat) :
    (∃ n, Generator.len d lbound = DataLen.LBound n) ∧
    (∃ ky, Generator.key d i = some ky) ∧
    (∃ a s, Generator.generate d k = (a, s)) ∧
    (∃ cs, Generator.update d = cs) :=
  ⟨⟨_, rfl⟩, ⟨_, rfl⟩, ⟨_, _, rfl⟩, ⟨_, rfl⟩⟩

/-- Claim C6: `generate` returns exactly `(active, get_string key)`, where
`get_string` yields the stored string when present and the default
`Entry #(key+1)` otherwise, and `generate` is a pure function: equal
arguments give equal items. -/
theorem generate_spec (d : MyData) (k : Nat) :
    Generator.generate d k = (d.active, d.get_string k) ∧
    (d.strings k = none → d.get_string k = "Entry #" ++ toString (k + 1)) ∧
    (∀ s, d.strings k = some s → d.get_string k = s) ∧
    (∀ d2 k2, d = d2 → k = k2 → Generator.generate d k = Generator.generate d2 k2) := by
  refine ⟨rfl, ?_, ?_, ?_⟩
  · intro h
    simp [MyData.get_string, h]
  · intro s h
    simp [MyData.get_string, h]
  · intro d2 k2 h1 h2
    subst h1
    subst h2
    rfl

theorem generate_spec_witness :
    (MyData.new.handle (Control.Update 2 "hi")).get_string 2 = "hi" ∧
    MyData.new.get_string 0 = "Entry #" ++ toString (0 + 1) := by
  constructor
  · exact (generate_spec (MyData.new.handle (Control.Update 2 "hi")) 2).2.2.1 "hi" rfl
  · exact (generate_spec MyData.new 0).2.1 rfl

/-- Claim C7: `handle (Update i s)` sets row `i`'s text to `s`, leaves every
other row's text unchanged, and leaves `active` unchanged. -/
theorem update_row_isolation (d : MyData) (i : Nat) (s : String) :
    (d.handle (Control.Update i s)).get_string i = s ∧
    (∀ k, k ≠ i → (d.handle (Control.Update i s)).get_string k = d.get_string k) ∧
    (d.handle (Control.Update i s)).active = d.active := by
  refine ⟨?_, ?_, rfl⟩
  · simp [MyData.handle, MyData.get_string]
  · intro k hk
    simp [MyData.handle, MyData.get_string, hk]

theorem update_row_isolation_witness :
    (MyData.new.handle (Control.Update 1 "x")).get_string 1 = "x" ∧
    (MyData.new.handle (Control.Update 1 "x")).get_string 0 = MyData.new.get_string 0 := by
  have h := update_row_isolation MyData.new 1 "x"
  exact ⟨h.1, h.2.1 0 (by decide)⟩

/-- The item type of the example: `(active index, entry's text)`. -/
abbrev MyItem := Nat × String

/-- The `ListEntry` row widget, reduced to the data chosen by
`ListEntryDriver::make`: the label's text, the radio button's checked
predicate and emitted message, and the edit box's guard key. -/
structure ListEntry where
  label : String
  radioChecked : MyItem → Bool
  radioMsg : Control
  editGuard : Nat

/-- `ListEntryDriver::make`: builds the row widget from the key alone. -/
def ListEntryDriver.make (key : Nat) : ListEntry :=
  { label := "Entry number " ++ toString (key + 1)
    radioChecked := fun data => data.fst == key
    radioMsg := Control.Select key
    editGuard := key }

/-- `ListEntryDriver::navigable`: always `false`. -/
def ListEntryDriver.navigable (_ : ListEntry) : Bool :=
  false

/-- Claim C10: `navigable` returns `false` for every row widget, and `make`
is a pure function of the key alone: the label, radio predicate, radio
message and edit guard of `make k` are each determined by `k`. -/
theorem driver_not_navigable (w : ListEntry) (k : Nat) :
    ListEntryDriver.navigable w = false ∧
    (ListEntryDriver.make k).label = "Entry number " ++ toString (k + 1) ∧
    (ListEntryDriver.make k).editGuard = k ∧
    (ListEntryDriver.make k).radioMsg = Control.Select k ∧
    (∀ item : MyItem, (ListEntryDriver.make k).radioChecked item = (item.fst == k)) :=
  ⟨rfl, rfl, rfl, rfl, fun _ => rfl⟩
